import Mathlib

/-!
Verification of the SignalBoard PM-metrics module (funnels, retention, daily
time series, anomaly detection) and the chatbot forecaster (linear regression,
trend projection).

Modelling conventions:
* JS numbers are modelled as `Rat` (the code only performs field operations
  and comparisons on them); counters are `Nat`.
* Calendar days are modelled as integers (`Int`): `dayKey` maps every instant
  to its calendar day, `setDate` arithmetic adds whole days, and the analytics
  code only ever compares or shifts day keys, so a day index is a faithful
  image of the `"YYYY-MM-DD"` string key.
* A signal/event timestamp is carried at day granularity as `Option Int`
  (`none` models a missing/falsy timestamp field).
* JS `Map`s keyed by strings/day keys are modelled as association lists in
  insertion order, matching `Map` iteration order.
* `Math.round` is `jsRound q = ⌊q + 1/2⌋`, which is the JS behaviour
  (round half toward positive infinity).
-/

namespace SignalBoard

/-- JS `Math.round`: round half up (toward positive infinity). -/
def jsRound (q : Rat) : Int := Int.floor (q + 1/2)

/-- Source `average(array)` from the integration module: 0 on the empty list,
otherwise sum divided by length. -/
def average (l : List Rat) : Rat :=
  if l.length = 0 then 0 else l.sum / l.length

/-- Per-category counters of a daily bucket (`day.categories`). -/
structure CategoryCounts where
  bug : Nat := 0
  feature : Nat := 0
  performance : Nat := 0
  ux : Nat := 0
  documentation : Nat := 0
  deriving Repr, DecidableEq

/-- Per-tier counters of a daily bucket (`day.tiers`). -/
structure TierCounts where
  enterprise : Nat := 0
  pro : Nat := 0
  free : Nat := 0
  deriving Repr, DecidableEq

/-- One daily bucket of the time series (`computeDailyTimeSeries` output). -/
structure DayBucket where
  date : Int
  signalCount : Nat := 0
  totalImpact : Rat := 0
  avgImpact : Int := 0
  criticalCount : Nat := 0
  highCount : Nat := 0
  mediumCount : Nat := 0
  lowCount : Nat := 0
  negativeCount : Nat := 0
  categories : CategoryCounts := {}
  tiers : TierCounts := {}
  deriving Repr, DecidableEq

/-- A captured product signal, with the fields the analytics code reads.
`timestamp` is the day key of the signal timestamp; `none` models a
missing/falsy timestamp. Optional string fields model missing/falsy JS
fields. -/
structure Signal where
  timestamp : Option Int := none
  impact : Option Rat := none
  urgency : Option String := none
  sentiment : Option String := none
  category : Option String := none
  tier : Option String := none
  deriving Repr, DecidableEq

/-- Day key assigned to a signal: `dayKey(signal.timestamp || new Date())` —
the signal timestamp when present, the `now` reference day otherwise. -/
def dayKeyOf (now : Int) (s : Signal) : Int :=
  (s.timestamp).getD now

/-- The zero-valued bucket that `computeDailyTimeSeries` initialises for a
window day. -/
def zeroBucket (d : Int) : DayBucket := { date := d }

/-- Window initialisation: one zero bucket per day from `now - (days-1)`
(oldest, first) up to `now` (newest, last), mirroring the JS loop
`for (let i = days - 1; i >= 0; i--)` inserting `dayKey(today - i)`. -/
def initSeries (now : Int) (days : Nat) : List DayBucket :=
  (List.range days).map (fun (i : Nat) => zeroBucket (now - ((days : Int) - 1) + (i : Int)))

/-- Count and impact part of the per-signal bucket update
(`day.signalCount++; day.totalImpact += safeNumber(signal.impact, 0)`). -/
def bumpCore (s : Signal) (b : DayBucket) : DayBucket :=
  { b with
    signalCount := b.signalCount + 1,
    totalImpact := b.totalImpact + (s.impact.getD 0) }

/-- Urgency tally of the per-signal bucket update
(`(signal.urgency || 'low').toLowerCase()` routed to one of four counters). -/
def bumpUrgency (s : Signal) (b : DayBucket) : DayBucket :=
  let urgency := (s.urgency.getD "low").toLower
  if urgency = "critical" then { b with criticalCount := b.criticalCount + 1 }
  else if urgency = "high" then { b with highCount := b.highCount + 1 }
  else if urgency = "medium" then { b with mediumCount := b.mediumCount + 1 }
  else { b with lowCount := b.lowCount + 1 }

/-- Negative-sentiment tally (`if (signal.sentiment === 'negative')`). -/
def bumpSentiment (s : Signal) (b : DayBucket) : DayBucket :=
  if s.sentiment = some "negative" then { b with negativeCount := b.negativeCount + 1 }
  else b

/-- Category tally: increment only when the lower-cased category (default
`"other"`) is one of the five tracked keys
(`if (day.categories[category] !== undefined)`). -/
def bumpCategory (s : Signal) (b : DayBucket) : DayBucket :=
  let cat := (s.category.getD "other").toLower
  if cat = "bug" then { b with categories := { b.categories with bug := b.categories.bug + 1 } }
  else if cat = "feature" then { b with categories := { b.categories with feature := b.categories.feature + 1 } }
  else if cat = "performance" then { b with categories := { b.categories with performance := b.categories.performance + 1 } }
  else if cat = "ux" then { b with categories := { b.categories with ux := b.categories.ux + 1 } }
  else if cat = "documentation" then { b with categories := { b.categories with documentation := b.categories.documentation + 1 } }
  else b

/-- Tier tally: increment only when the lower-cased tier (default `"free"`)
is one of the three tracked keys (`if (day.tiers[tier] !== undefined)`). -/
def bumpTier (s : Signal) (b : DayBucket) : DayBucket :=
  let tier := (s.tier.getD "free").toLower
  if tier = "enterprise" then { b with tiers := { b.tiers with enterprise := b.tiers.enterprise + 1 } }
  else if tier = "pro" then { b with tiers := { b.tiers with pro := b.tiers.pro + 1 } }
  else if tier = "free" then { b with tiers := { b.tiers with free := b.tiers.free + 1 } }
  else b

/-- Fold one signal into its bucket: the per-signal update body of
`computeDailyTimeSeries` (count, impact, urgency tally, sentiment tally,
category tally, tier tally, in source order). -/
def bumpBucket (s : Signal) (b : DayBucket) : DayBucket :=
  bumpTier s (bumpCategory s (bumpSentiment s (bumpUrgency s (bumpCore s b))))

/-- Apply one signal to the whole bucket map: the bucket whose day key matches
the signal is updated; with no matching key the signal is skipped
(`if (!map.has(key)) return`). -/
def applySignal (now : Int) (buckets : List DayBucket) (s : Signal) : List DayBucket :=
  buckets.map (fun b => if b.date = dayKeyOf now s then bumpBucket s b else b)

/-- Final averaging pass: recompute `avgImpact` as the rounded mean impact
of a bucket (0 for an empty bucket). -/
def finalizeBucket (b : DayBucket) : DayBucket :=
  { b with avgImpact :=
      if 0 < b.signalCount then jsRound (b.totalImpact / (b.signalCount : Rat)) else 0 }

/-- Source `computeDailyTimeSeries(signals, days)` relative to the reference day
`now`: initialise a zero bucket per window day, fold every signal into its
bucket (skipping signals whose day key is outside the window), then
recompute each bucket's average impact. -/
def computeDailyTimeSeries (signals : List Signal) (days : Nat) (now : Int) : List DayBucket :=
  ((signals.foldl (applySignal now) (initSeries now days)).map finalizeBucket)

/-- An analytics event (`{type, userId, timestamp}`); the timestamp is carried
at day granularity (its day key) since retention only uses day arithmetic. -/
structure Event where
  type : String
  userId : String
  day : Int
  deriving Repr, DecidableEq

/-- Source `CONFIG.funnelSteps`: the ordered funnel step names. -/
def funnelSteps : List String :=
  ["app_open", "view_capture", "signal_captured", "view_insights", "benchmark_created"]

/-- Unique users at a step: the distinct `userId`s of the events whose `type`
equals the step name (`new Set(events.filter(e => e.type === step).map(e => e.userId))`). -/
def usersForStep (events : List Event) (step : String) : List String :=
  ((events.filter (fun e => e.type = step)).map (fun e => e.userId)).dedup

/-- One row of the funnel output. -/
structure FunnelStep where
  step : String
  users : Nat
  conversionRate : Rat
  dropoffCount : Int
  deriving Repr, DecidableEq

/-- The funnel row at index `i`: unique-user count for step `i`, conversion
rate 1 for the first step and `count / previousCount` (0 when the previous
count is 0) afterwards, dropoff `previousCount - count` (0 for the first
step). -/
def funnelStepAt (events : List Event) (i : Nat) : FunnelStep :=
  let step := funnelSteps.getD i ""
  let count := (usersForStep events step).length
  let prevCount := (usersForStep events (funnelSteps.getD (i - 1) "")).length
  { step := step
    users := count
    conversionRate :=
      if i = 0 then 1
      else if 0 < prevCount then (count : Rat) / (prevCount : Rat) else 0
    dropoffCount := if i = 0 then 0 else (prevCount : Int) - (count : Int) }

/-- The full funnel analysis result. -/
structure FunnelAnalysis where
  steps : List FunnelStep
  overallConversion : Rat
  totalUsers : Nat
  deriving Repr, DecidableEq

/-- Source `computeFunnelAnalysis(events)`: per-step rows over `CONFIG.funnelSteps`,
plus the overall conversion `lastStepUsers / firstStepUsers` (0 when the
first step has no users). -/
def computeFunnelAnalysis (events : List Event) : FunnelAnalysis :=
  let funnelData := (List.range funnelSteps.length).map (funnelStepAt events)
  let firstStepUsers := (funnelData.headD (funnelStepAt events 0)).users
  let lastStepUsers := (funnelData.getLastD (funnelStepAt events 0)).users
  { steps := funnelData
    overallConversion :=
      if 0 < firstStepUsers then (lastStepUsers : Rat) / (firstStepUsers : Rat) else 0
    totalUsers := firstStepUsers }

/-- Source `CONFIG.retentionDays`. -/
def retentionDays : List Int := [1, 3, 7, 14, 30]

/-- First-seen fold step: record the event day for a new user, lower an
existing entry only when the event day is strictly earlier
(`if (eventDate < existing)`). -/
def updateFirstSeen (m : List (String × Int)) (u : String) (t : Int) : List (String × Int) :=
  if m.any (fun p => p.1 = u) then
    m.map (fun p => if p.1 = u ∧ t < p.2 then (p.1, t) else p)
  else m ++ [(u, t)]

/-- Active-days fold step: add the event day to the user's day set
(a JS `Set`, modelled as a duplicate-free list). -/
def addActiveDay (m : List (String × List Int)) (u : String) (d : Int) :
    List (String × List Int) :=
  if m.any (fun p => p.1 = u) then
    m.map (fun p => if p.1 = u then (p.1, if d ∈ p.2 then p.2 else p.2 ++ [d]) else p)
  else m ++ [(u, [d])]

/-- The `userFirstSeen` map built from the event stream. -/
def userFirstSeen (events : List Event) : List (String × Int) :=
  events.foldl (fun m e => updateFirstSeen m e.userId e.day) []

/-- The `userActiveDays` map built from the event stream. -/
def userActiveDays (events : List Event) : List (String × List Int) :=
  events.foldl (fun m e => addActiveDay m e.userId e.day) []

/-- Whether one first-seen entry counts as retained at offset `off`: the
user's active-day set contains `firstSeen + off` (a user with no active-day
entry is not retained, mirroring the `activeDays &&` guard). -/
def isRetained (ad : List (String × List Int)) (off : Int) (p : String × Int) : Bool :=
  match ad.lookup p.1 with
  | some ds => decide ((p.2 + off) ∈ ds)
  | none => false

/-- One per-offset retention record. -/
structure RetentionEntry where
  dayOffset : Int
  retained : Nat
  total : Nat
  rate : Rat
  deriving Repr, DecidableEq

/-- The retention analysis result (`retention` keyed by offset, in
`CONFIG.retentionDays` order). -/
structure RetentionAnalysis where
  totalUsers : Nat
  retention : List RetentionEntry
  deriving Repr, DecidableEq

/-- Source `computeRetentionAnalysis(events)`: build the first-seen and active-day
maps, then for each configured offset count the retained users and divide by
the cohort size (rate 0 for an empty cohort). -/
def computeRetentionAnalysis (events : List Event) : RetentionAnalysis :=
  let fs := userFirstSeen events
  let ad := userActiveDays events
  let totalUsers := fs.length
  { totalUsers := totalUsers
    retention := retentionDays.map (fun off =>
      let retainedCount := (fs.filter (isRetained ad off)).length
      { dayOffset := off
        retained := retainedCount
        total := totalUsers
        rate := if 0 < totalUsers then (retainedCount : Rat) / (totalUsers : Rat) else 0 }) }

/-- Source `CONFIG.anomalyThresholds.signalVolumeDelta` (30% change). -/
def signalVolumeDeltaThreshold : Rat := 3/10

/-- Source `CONFIG.anomalyThresholds.impactScoreDelta` (25% change). -/
def impactScoreDeltaThreshold : Rat := 1/4

/-- Source `CONFIG.anomalyThresholds.criticalSignalRatio` (15% critical signals);
renamed here to avoid a reserved suffix. -/
def criticalSignalThreshold : Rat := 3/20

/-- Source `timeSeries.slice(-windows.short)`: the last 7 buckets. -/
def recentWindow (ts : List DayBucket) : List DayBucket :=
  ts.drop (ts.length - 7)

/-- Source `timeSeries.slice(-windows.medium, -windows.short)`: the 7 buckets
preceding the recent window. -/
def previousWindow (ts : List DayBucket) : List DayBucket :=
  (ts.drop (ts.length - 14)).take 7

/-- Relative week-over-week volume change:
`(recentVolume - previousVolume) / previousVolume`, defined as 0 when the
previous mean volume is not positive. -/
def volumeDelta (ts : List DayBucket) : Rat :=
  let recentVolume := average ((recentWindow ts).map (fun d => (d.signalCount : Rat)))
  let previousVolume := average ((previousWindow ts).map (fun d => (d.signalCount : Rat)))
  if 0 < previousVolume then (recentVolume - previousVolume) / previousVolume else 0

/-- Relative week-over-week change of the mean `avgImpact`, 0 when the
previous mean is not positive. -/
def impactDelta (ts : List DayBucket) : Rat :=
  let recentImpact := average ((recentWindow ts).map (fun d => (d.avgImpact : Rat)))
  let previousImpact := average ((previousWindow ts).map (fun d => (d.avgImpact : Rat)))
  if 0 < previousImpact then (recentImpact - previousImpact) / previousImpact else 0

/-- Critical signals in the recent window. -/
def recentCriticalCount (ts : List DayBucket) : Nat :=
  ((recentWindow ts).map (fun d => d.criticalCount)).sum

/-- All signals in the recent window. -/
def recentTotalCount (ts : List DayBucket) : Nat :=
  ((recentWindow ts).map (fun d => d.signalCount)).sum

/-- Fraction of recent signals with critical urgency (`criticalRatio` in the
source), 0 when the recent window holds no signals. -/
def criticalFrac (ts : List DayBucket) : Rat :=
  if 0 < recentTotalCount ts
  then (recentCriticalCount ts : Rat) / (recentTotalCount ts : Rat) else 0

/-- Per-category totals over the recent window, in `Object.entries` insertion
order. -/
def categoryTotals (ts : List DayBucket) : List (String × Nat) :=
  let r := recentWindow ts
  [("bug", (r.map (fun d => d.categories.bug)).sum),
   ("feature", (r.map (fun d => d.categories.feature)).sum),
   ("performance", (r.map (fun d => d.categories.performance)).sum),
   ("ux", (r.map (fun d => d.categories.ux)).sum),
   ("documentation", (r.map (fun d => d.categories.documentation)).sum)]

/-- First entry of the entries stable-sorted by descending count: the
earliest entry achieving the maximal count. -/
def dominantOf (l : List (String × Nat)) : String × Nat :=
  l.foldl (fun best p => if best.2 < p.2 then p else best) (l.headD ("", 0))

/-- Share of the dominant category among recent signals (0 when the recent
window holds no signals). -/
def concentrationOf (ts : List DayBucket) : Rat :=
  if 0 < recentTotalCount ts
  then ((dominantOf (categoryTotals ts)).2 : Rat) / (recentTotalCount ts : Rat) else 0

/-- One detected anomaly. Presentation-only fields (`message`, formatted
percentages) are omitted; the optional numeric fields mirror the shape each
anomaly type carries. -/
structure Anomaly where
  type : String
  severity : String
  delta : Rat
  metric : String
  current : Option Int := none
  previous : Option Int := none
  total : Option Nat := none
  categoryName : Option String := none
  count : Option Nat := none
  deriving Repr, DecidableEq

/-- The signal-volume check: one anomaly when `|volumeDelta|` reaches the 30%
threshold (severity high above 50%), else nothing. -/
def volumeAnomalies (ts : List DayBucket) : List Anomaly :=
  let recentVolume := average ((recentWindow ts).map (fun d => (d.signalCount : Rat)))
  let previousVolume := average ((previousWindow ts).map (fun d => (d.signalCount : Rat)))
  let vd := volumeDelta ts
  if signalVolumeDeltaThreshold ≤ |vd| then
    [{ type := "signal_volume_anomaly"
       severity := if 1/2 < |vd| then "high" else "medium"
       delta := vd
       metric := "volume"
       current := some (jsRound recentVolume)
       previous := some (jsRound previousVolume) : Anomaly }]
  else []

/-- The average-impact check: one anomaly when `|impactDelta|` reaches the 25%
threshold (severity high above 40%), else nothing. -/
def impactAnomalies (ts : List DayBucket) : List Anomaly :=
  let recentImpact := average ((recentWindow ts).map (fun d => (d.avgImpact : Rat)))
  let previousImpact := average ((previousWindow ts).map (fun d => (d.avgImpact : Rat)))
  let idl := impactDelta ts
  if impactScoreDeltaThreshold ≤ |idl| then
    [{ type := "impact_score_anomaly"
       severity := if 2/5 < |idl| then "high" else "medium"
       delta := idl
       metric := "impact"
       current := some (jsRound recentImpact)
       previous := some (jsRound previousImpact) : Anomaly }]
  else []

/-- The critical-ratio check: one anomaly when the recent critical fraction
reaches the 15% threshold, else nothing. -/
def criticalAnomalies (ts : List DayBucket) : List Anomaly :=
  if criticalSignalThreshold ≤ criticalFrac ts then
    [{ type := "critical_signal_spike"
       severity := "high"
       delta := criticalFrac ts
       metric := "critical_ratio"
       current := some (recentCriticalCount ts : Int)
       total := some (recentTotalCount ts) : Anomaly }]
  else []

/-- The category-concentration check: one anomaly when there are recent
signals and the dominant category holds strictly more than half of them,
else nothing. -/
def categoryAnomalies (ts : List DayBucket) : List Anomaly :=
  let dominant := dominantOf (categoryTotals ts)
  if 0 < recentTotalCount ts ∧ 1/2 < concentrationOf ts then
    [{ type := "category_concentration"
       severity := "medium"
       delta := concentrationOf ts
       metric := "category"
       categoryName := some dominant.1
       count := some dominant.2 : Anomaly }]
  else []

/-- Source `detectAnomalies(timeSeries)`: empty for fewer than 14 buckets (and under
the defensive empty-previous-window guard), otherwise the volume, impact,
critical-ratio and category-concentration checks in push order. -/
def detectAnomalies (ts : List DayBucket) : List Anomaly :=
  if ts.length < 14 then [] else
  if (previousWindow ts).length = 0 then [] else
  volumeAnomalies ts ++ impactAnomalies ts ++ criticalAnomalies ts ++ categoryAnomalies ts

/-- Result of `linearRegression`. -/
structure Regression where
  slope : Rat
  intercept : Rat
  deriving Repr, DecidableEq

/-- Source `linearRegression(x, y)` from the chatbot: ordinary least squares with an
explicit guard on the degenerate denominator `n*sumXX - sumX^2` (slope 0)
and on `n = 0` (intercept 0). `sumXY` pairs the lists positionally, as the
JS `reduce` over indices does. -/
def linearRegression (x y : List Rat) : Regression :=
  let n := x.length
  let sumX := x.sum
  let sumY := y.sum
  let sumXY := ((x.zip y).map (fun p => p.1 * p.2)).sum
  let sumXX := (x.map (fun xi => xi * xi)).sum
  let denominator := (n : Rat) * sumXX - sumX * sumX
  let slope := if denominator ≠ 0 then ((n : Rat) * sumXY - sumX * sumY) / denominator else 0
  let intercept := if n ≠ 0 then (sumY - slope * sumX) / (n : Rat) else 0
  { slope := slope, intercept := intercept }

/-- Population variance of a list, mirroring the module's
`standardDeviation` without the square root: mean of squared deviations from
the mean (0 on the empty list). -/
def xVariance (l : List Rat) : Rat :=
  average (l.map (fun v => (v - average l) * (v - average l)))

/-- One forecasted day. -/
structure Prediction where
  projectedSignals : Int
  confidence : Int
  trend : String
  deriving Repr, DecidableEq

/-- Source `this.trendData.daily.slice(-14)`: the trailing daily totals fed to the
forecaster. -/
def recentDaily (daily : List Rat) : List Rat :=
  daily.drop (daily.length - 14)

/-- The regression the forecaster fits: totals against their indices. -/
def dailyRegression (daily : List Rat) : Regression :=
  linearRegression
    ((List.range (recentDaily daily).length).map (fun (i : Nat) => (i : Rat)))
    (recentDaily daily)

/-- Source `predictFutureTrends` on the trailing daily totals
(`trendData.daily.map(d => d.totalSignals)`): take the last 14 values,
require at least 7, regress totals against indices, and project days 1..7:
`slope * (n + i) + intercept` clamped at 0 after JS rounding, confidence
`max(60, 95 - i*5)`, trend classified from the sign of the slope. -/
def predictFutureTrends (daily : List Rat) : List Prediction :=
  let recent := recentDaily daily
  if recent.length < 7 then [] else
  let reg := dailyRegression daily
  (List.range 7).map (fun j =>
    let i : Nat := j + 1
    let predicted := reg.slope * ((recent.length : Rat) + (i : Rat)) + reg.intercept
    { projectedSignals := max 0 (jsRound predicted)
      confidence := max 60 (95 - (i : Int) * 5)
      trend :=
        if 0 < reg.slope then "increasing"
        else if reg.slope < 0 then "decreasing" else "stable" })

/-! ### Lemmas about the daily time series -/

/-- The day keys of the configured window: `now - (days-1)` up to `now`. -/
def windowDays (days : Nat) (now : Int) : List Int :=
  (List.range days).map (fun (i : Nat) => now - ((days : Int) - 1) + (i : Int))

/-- The cumulative effect of the signal fold on one bucket. -/
def perBucket (now : Int) (signals : List Signal) (b : DayBucket) : DayBucket :=
  signals.foldl (fun b s => if b.date = dayKeyOf now s then bumpBucket s b else b) b

theorem bumpUrgency_date (s : Signal) (b : DayBucket) : (bumpUrgency s b).date = b.date := by
  simp only [bumpUrgency]
  split_ifs <;> rfl

theorem bumpSentiment_date (s : Signal) (b : DayBucket) : (bumpSentiment s b).date = b.date := by
  simp only [bumpSentiment]
  split_ifs <;> rfl

theorem bumpCategory_date (s : Signal) (b : DayBucket) : (bumpCategory s b).date = b.date := by
  simp only [bumpCategory]
  split_ifs <;> rfl

theorem bumpTier_date (s : Signal) (b : DayBucket) : (bumpTier s b).date = b.date := by
  simp only [bumpTier]
  split_ifs <;> rfl

theorem bumpBucket_date (s : Signal) (b : DayBucket) : (bumpBucket s b).date = b.date := by
  unfold bumpBucket
  rw [bumpTier_date, bumpCategory_date, bumpSentiment_date, bumpUrgency_date]
  rfl

theorem bumpUrgency_signalCount (s : Signal) (b : DayBucket) :
    (bumpUrgency s b).signalCount = b.signalCount := by
  simp only [bumpUrgency]
  split_ifs <;> rfl

theorem bumpSentiment_signalCount (s : Signal) (b : DayBucket) :
    (bumpSentiment s b).signalCount = b.signalCount := by
  simp only [bumpSentiment]
  split_ifs <;> rfl

theorem bumpCategory_signalCount (s : Signal) (b : DayBucket) :
    (bumpCategory s b).signalCount = b.signalCount := by
  simp only [bumpCategory]
  split_ifs <;> rfl

theorem bumpTier_signalCount (s : Signal) (b : DayBucket) :
    (bumpTier s b).signalCount = b.signalCount := by
  simp only [bumpTier]
  split_ifs <;> rfl

theorem bumpBucket_signalCount (s : Signal) (b : DayBucket) :
    (bumpBucket s b).signalCount = b.signalCount + 1 := by
  unfold bumpBucket
  rw [bumpTier_signalCount, bumpCategory_signalCount, bumpSentiment_signalCount,
    bumpUrgency_signalCount]
  rfl

theorem finalizeBucket_date (b : DayBucket) : (finalizeBucket b).date = b.date := rfl

theorem finalizeBucket_signalCount (b : DayBucket) :
    (finalizeBucket b).signalCount = b.signalCount := rfl

theorem finalizeBucket_zero (d : Int) : finalizeBucket (zeroBucket d) = zeroBucket d := rfl

theorem foldl_map_comm {α β : Type} (g : α → β → β) (l : List α) (m : List β) :
    l.foldl (fun acc a => acc.map (g a)) m = m.map (fun b => l.foldl (fun b a => g a b) b) := by
  induction l generalizing m with
  | nil => simp
  | cons a t ih =>
      simp only [List.foldl_cons, ih, List.map_map]
      rfl

theorem initSeries_eq (now : Int) (days : Nat) :
    initSeries now days = (windowDays days now).map zeroBucket := by
  simp [initSeries, windowDays, List.map_map]

theorem computeDailyTimeSeries_eq (signals : List Signal) (days : Nat) (now : Int) :
    computeDailyTimeSeries signals days now
      = (initSeries now days).map (fun b => finalizeBucket (perBucket now signals b)) := by
  unfold computeDailyTimeSeries perBucket
  rw [show (signals.foldl (applySignal now) (initSeries now days))
        = (initSeries now days).map
            (fun b => signals.foldl (fun b s => if b.date = dayKeyOf now s then bumpBucket s b else b) b)
      from foldl_map_comm _ signals (initSeries now days)]
  rw [List.map_map]
  rfl

theorem perBucket_date (now : Int) (signals : List Signal) (b : DayBucket) :
    (perBucket now signals b).date = b.date := by
  induction signals generalizing b with
  | nil => rfl
  | cons s t ih =>
      unfold perBucket at ih ⊢
      simp only [List.foldl_cons]
      by_cases h : b.date = dayKeyOf now s
      · rw [if_pos h, ih, bumpBucket_date]
      · rw [if_neg h, ih]

theorem perBucket_signalCount (now : Int) (signals : List Signal) (b : DayBucket) :
    (perBucket now signals b).signalCount
      = b.signalCount + (signals.filter (fun s => decide (dayKeyOf now s = b.date))).length := by
  induction signals generalizing b with
  | nil => simp [perBucket]
  | cons s t ih =>
      unfold perBucket at ih ⊢
      simp only [List.foldl_cons, List.filter_cons]
      by_cases h : b.date = dayKeyOf now s
      · rw [if_pos h]
        rw [ih (bumpBucket s b)]
        rw [bumpBucket_date, bumpBucket_signalCount]
        have hc : (decide (dayKeyOf now s = b.date)) = true := by
          simp [h.symm]
        rw [hc]
        simp [Nat.add_comm, Nat.add_assoc, Nat.add_left_comm]
      · rw [if_neg h]
        rw [ih b]
        have hc : (decide (dayKeyOf now s = b.date)) = false := by
          simp only [decide_eq_false_iff_not]
          exact fun hh => h hh.symm
        rw [hc]
        simp

theorem perBucket_no_match (now : Int) (signals : List Signal) (b : DayBucket)
    (h : ∀ s ∈ signals, dayKeyOf now s ≠ b.date) :
    perBucket now signals b = b := by
  induction signals generalizing b with
  | nil => rfl
  | cons s t ih =>
      unfold perBucket at ih ⊢
      simp only [List.foldl_cons]
      rw [if_neg (fun hh => h s (List.mem_cons_self s t) hh.symm)]
      exact ih b (fun x hx => h x (List.mem_cons_of_mem s hx))

theorem windowDays_length (days : Nat) (now : Int) : (windowDays days now).length = days := by
  rw [windowDays, List.length_map, List.length_range]

theorem windowDays_nodup (days : Nat) (now : Int) : (windowDays days now).Nodup := by
  apply List.Nodup.map
  · intro a b hab
    dsimp only at hab
    omega
  · exact List.nodup_range days

theorem length_filter_disjoint {α : Type} (p q : α → Bool) (l : List α)
    (h : ∀ a, ¬(p a = true ∧ q a = true)) :
    (l.filter (fun a => p a || q a)).length = (l.filter p).length + (l.filter q).length := by
  induction l with
  | nil => rfl
  | cons a t ih =>
      rcases hp : p a with _ | _ <;> rcases hq : q a with _ | _
      · simp [List.filter_cons, hp, hq]
        omega
      · simp [List.filter_cons, hp, hq]
        omega
      · simp [List.filter_cons, hp, hq]
        omega
      · exact absurd ⟨hp, hq⟩ (h a)

theorem sum_count_filter {α β : Type} [DecidableEq β] (f : α → β) (dates : List β)
    (hnd : dates.Nodup) (l : List α) :
    (dates.map (fun d => (l.filter (fun a => decide (f a = d))).length)).sum
      = (l.filter (fun a => decide (f a ∈ dates))).length := by
  induction dates with
  | nil => simp
  | cons d ds ih =>
      rcases List.nodup_cons.mp hnd with ⟨hd, hds⟩
      have hsplit :
          (l.filter (fun a => decide (f a ∈ d :: ds)))
            = l.filter (fun a => decide (f a = d) || decide (f a ∈ ds)) := by
        apply List.filter_congr
        intro a _
        simp [List.mem_cons]
      have hdisj : ∀ a, ¬((decide (f a = d)) = true ∧ (decide (f a ∈ ds)) = true) := by
        intro a
        rintro ⟨h1, h2⟩
        rw [decide_eq_true_iff] at h1 h2
        exact hd (h1 ▸ h2)
      rw [List.map_cons, List.sum_cons, ih hds, hsplit, length_filter_disjoint _ _ l hdisj]

/-- Claim C4: for every signal collection and window length, the daily
time-series aggregator returns exactly `days` buckets whose day keys are the
contiguous run `now-(days-1), …, now` in oldest-first order, and every window
day with no matching signal is present as the zero-valued bucket. -/
theorem c4_daily_window (signals : List Signal) (days : Nat) (now : Int) :
    (computeDailyTimeSeries signals days now).length = days
    ∧ (computeDailyTimeSeries signals days now).map (fun b => b.date) = windowDays days now
    ∧ ∀ i, i < days →
        (∀ s ∈ signals, dayKeyOf now s ≠ now - ((days : Int) - 1) + (i : Int)) →
        (computeDailyTimeSeries signals days now).getD i (zeroBucket 0)
          = zeroBucket (now - ((days : Int) - 1) + (i : Int)) := by
  rw [computeDailyTimeSeries_eq, initSeries_eq, List.map_map]
  refine ⟨by rw [List.length_map, windowDays_length], ?_, ?_⟩
  · rw [List.map_map]
    refine Eq.trans (List.map_congr_left ?_) (List.map_id _)
    intro d _
    simp only [Function.comp_apply, finalizeBucket_date, perBucket_date, id_eq]
    rfl
  · intro i hi hnone
    have hlen : i < ((windowDays days now).map
        ((fun b => finalizeBucket (perBucket now signals b)) ∘ zeroBucket)).length := by
      rw [List.length_map, windowDays_length]; exact hi
    rw [List.getD_eq_getElem _ _ hlen, List.getElem_map]
    have hwi : i < (windowDays days now).length := by rw [windowDays_length]; exact hi
    have hd : (windowDays days now)[i] = now - ((days : Int) - 1) + (i : Int) := by
      simp [windowDays]
    rw [hd]
    simp only [Function.comp_apply]
    rw [perBucket_no_match now signals _ (by
      intro s hs
      rw [show (zeroBucket (now - ((days : Int) - 1) + (i : Int))).date
            = now - ((days : Int) - 1) + (i : Int) from rfl]
      exact hnone s hs)]
    exact finalizeBucket_zero _

theorem applySignal_no_match (now : Int) (m : List DayBucket) (s : Signal)
    (h : ∀ b ∈ m, b.date ≠ dayKeyOf now s) : applySignal now m s = m := by
  unfold applySignal
  rw [List.map_congr_left (fun b hb => if_neg (h b hb))]
  exact List.map_id m

/-- Claim C5: the bucket counts of the daily time series sum to the number of
signals whose day key lies in the window, and a signal with an out-of-window
day key changes nothing (it is skipped, not an error). -/
theorem c5_sum_counts (signals : List Signal) (days : Nat) (now : Int) :
    ((computeDailyTimeSeries signals days now).map (fun b => b.signalCount)).sum
      = (signals.filter (fun s => decide (dayKeyOf now s ∈ windowDays days now))).length
    ∧ ∀ s : Signal, dayKeyOf now s ∉ windowDays days now →
        computeDailyTimeSeries (signals ++ [s]) days now
          = computeDailyTimeSeries signals days now := by
  constructor
  · rw [computeDailyTimeSeries_eq, initSeries_eq, List.map_map, List.map_map]
    refine Eq.trans (congrArg List.sum (List.map_congr_left ?_))
      (sum_count_filter (dayKeyOf now) (windowDays days now) (windowDays_nodup days now)
        signals)
    intro d _
    simp only [Function.comp_apply, finalizeBucket_signalCount, perBucket_signalCount]
    simp [zeroBucket]
  · intro s hs
    unfold computeDailyTimeSeries
    rw [List.foldl_append, List.foldl_cons, List.foldl_nil]
    congr 1
    apply applySignal_no_match
    intro b hb
    rw [show signals.foldl (applySignal now) (initSeries now days)
          = (initSeries now days).map (perBucket now signals)
        from foldl_map_comm _ signals (initSeries now days)] at hb
    rcases List.mem_map.mp hb with ⟨b0, hb0, rfl⟩
    rw [perBucket_date]
    rw [initSeries_eq] at hb0
    rcases List.mem_map.mp hb0 with ⟨d, hdmem, rfl⟩
    intro hcontra
    exact hs (by rw [← hcontra]; exact hdmem)

/-- Claim C10: a signal with a missing (falsy) timestamp is assigned the day
key of the reference instant and is therefore counted in the newest (today)
bucket; the newest bucket counts exactly the signals whose day key is `now`. -/
theorem c10_missing_timestamp (signals : List Signal) (days : Nat) (now : Int)
    (h : 0 < days) :
    ((computeDailyTimeSeries signals days now).getD (days - 1) (zeroBucket 0)).date = now
    ∧ ((computeDailyTimeSeries signals days now).getD (days - 1) (zeroBucket 0)).signalCount
        = (signals.filter (fun s => decide (dayKeyOf now s = now))).length
    ∧ ∀ s ∈ signals, s.timestamp = none → dayKeyOf now s = now := by
  have hday : now - ((days : Int) - 1) + ((days - 1 : Nat) : Int) = now := by
    omega
  rw [computeDailyTimeSeries_eq, initSeries_eq, List.map_map]
  have hlen : days - 1 < ((windowDays days now).map
      ((fun b => finalizeBucket (perBucket now signals b)) ∘ zeroBucket)).length := by
    rw [List.length_map, windowDays_length]; omega
  rw [List.getD_eq_getElem _ _ hlen, List.getElem_map]
  have hwi : days - 1 < (windowDays days now).length := by rw [windowDays_length]; omega
  have hd : (windowDays days now)[days - 1] = now := by
    simp only [windowDays, List.getElem_map, List.getElem_range]
    exact hday
  rw [hd]
  refine ⟨?_, ?_, ?_⟩
  · simp only [Function.comp_apply, finalizeBucket_date, perBucket_date]
    rfl
  · simp only [Function.comp_apply, finalizeBucket_signalCount, perBucket_signalCount]
    simp [zeroBucket]
  · intro s _ hnone
    simp [dayKeyOf, hnone]

/-- Witness for C4: in a 3-day window ending at day 6, the oldest bucket (day
4) is zero-valued when the only signal falls on day 5. -/
theorem c4_daily_window_witness :
    (computeDailyTimeSeries [{ timestamp := some 5 }] 3 6).getD 0 (zeroBucket 0)
      = zeroBucket (6 - ((3 : Int) - 1) + ((0 : Nat) : Int)) :=
  (c4_daily_window [{ timestamp := some 5 }] 3 6).2.2 0 (by decide) (by decide)

/-- Witness for C5: appending a signal dated day 100 to a 3-day window ending
at day 6 leaves the series unchanged. -/
theorem c5_sum_counts_witness :
    computeDailyTimeSeries ([{ timestamp := some 5 }] ++ [{ timestamp := some 100 }]) 3 6
      = computeDailyTimeSeries [{ timestamp := some 5 }] 3 6 :=
  (c5_sum_counts [{ timestamp := some 5 }] 3 6).2 { timestamp := some 100 } (by decide)

/-- Witness for C10: a signal with a missing timestamp lands in the newest
bucket (day 6 of a 3-day window ending at day 6). -/
theorem c10_missing_timestamp_witness :
    ((computeDailyTimeSeries [{ timestamp := none }] 3 6).getD (3 - 1) (zeroBucket 0)).date = 6
    ∧ ((computeDailyTimeSeries [{ timestamp := none }] 3 6).getD (3 - 1) (zeroBucket 0)).signalCount
        = (([{ timestamp := none }] : List Signal).filter
            (fun s => decide (dayKeyOf 6 s = 6))).length :=
  ⟨(c10_missing_timestamp [{ timestamp := none }] 3 6 (by decide)).1,
   (c10_missing_timestamp [{ timestamp := none }] 3 6 (by decide)).2.1⟩

/-! ### Lemmas about the funnel -/

/-- Placeholder row used as the `getD` default when indexing funnel rows. -/
def emptyFunnelStep : FunnelStep :=
  { step := "", users := 0, conversionRate := 0, dropoffCount := 0 }

theorem computeFunnelAnalysis_steps_getD (events : List Event) (i : Nat)
    (hi : i < funnelSteps.length) :
    (computeFunnelAnalysis events).steps.getD i emptyFunnelStep = funnelStepAt events i := by
  unfold computeFunnelAnalysis
  dsimp only
  have hlen : i < ((List.range funnelSteps.length).map (funnelStepAt events)).length := by
    rw [List.length_map, List.length_range]; exact hi
  rw [List.getD_eq_getElem _ _ hlen, List.getElem_map, List.getElem_range]

theorem funnelStepAt_users (events : List Event) (i : Nat) :
    (funnelStepAt events i).users = (usersForStep events (funnelSteps.getD i "")).length := rfl

/-- Claim C2: a funnel step's unique-user count is the number of distinct
userIds among the events of that step's type; it depends only on those
events, and any user with an event of that type is counted at that step,
with no condition on earlier steps. -/
theorem c2_funnel_set_membership (events : List Event) (i : Nat)
    (hi : i < funnelSteps.length) :
    ((computeFunnelAnalysis events).steps.getD i emptyFunnelStep).users
        = ((events.filter (fun e => e.type = funnelSteps.getD i "")).map
            (fun e => e.userId)).toFinset.card
    ∧ (∀ events2 : List Event,
        events2.filter (fun e => e.type = funnelSteps.getD i "")
          = events.filter (fun e => e.type = funnelSteps.getD i "") →
        ((computeFunnelAnalysis events2).steps.getD i emptyFunnelStep).users
          = ((computeFunnelAnalysis events).steps.getD i emptyFunnelStep).users)
    ∧ (∀ u : String, (∃ e ∈ events, e.type = funnelSteps.getD i "" ∧ e.userId = u) →
        u ∈ usersForStep events (funnelSteps.getD i "")) := by
  rw [computeFunnelAnalysis_steps_getD events i hi]
  refine ⟨?_, ?_, ?_⟩
  · rw [funnelStepAt_users, List.card_toFinset]
    rfl
  · intro events2 h2
    rw [computeFunnelAnalysis_steps_getD events2 i hi, funnelStepAt_users, funnelStepAt_users]
    unfold usersForStep
    rw [h2]
  · intro u ⟨e, he, htype, huid⟩
    unfold usersForStep
    rw [List.mem_dedup]
    exact List.mem_map.mpr ⟨e, List.mem_filter.mpr ⟨he, by simp [htype]⟩, huid⟩

/-- Claim C6: the first funnel row's conversion rate is exactly 1; every
later row's rate is its count over the previous row's count, 0 when the
previous count is 0; overall conversion is last-over-first, 0 when the first
step has no users. -/
theorem c6_funnel_conversion (events : List Event) :
    ((computeFunnelAnalysis events).steps.getD 0 emptyFunnelStep).conversionRate = 1
    ∧ (∀ i, 0 < i → i < funnelSteps.length →
        (((computeFunnelAnalysis events).steps.getD (i - 1) emptyFunnelStep).users = 0 →
            ((computeFunnelAnalysis events).steps.getD i emptyFunnelStep).conversionRate = 0)
        ∧ (0 < ((computeFunnelAnalysis events).steps.getD (i - 1) emptyFunnelStep).users →
            ((computeFunnelAnalysis events).steps.getD i emptyFunnelStep).conversionRate
              = (((computeFunnelAnalysis events).steps.getD i emptyFunnelStep).users : Rat)
                / (((computeFunnelAnalysis events).steps.getD (i - 1) emptyFunnelStep).users : Rat)))
    ∧ (((computeFunnelAnalysis events).steps.getD 0 emptyFunnelStep).users = 0 →
        (computeFunnelAnalysis events).overallConversion = 0)
    ∧ (0 < ((computeFunnelAnalysis events).steps.getD 0 emptyFunnelStep).users →
        (computeFunnelAnalysis events).overallConversion
          = (((computeFunnelAnalysis events).steps.getD (funnelSteps.length - 1)
                emptyFunnelStep).users : Rat)
            / (((computeFunnelAnalysis events).steps.getD 0 emptyFunnelStep).users : Rat)) := by
  have h0 : (0 : Nat) < funnelSteps.length := by decide
  refine ⟨?_, ?_, ?_, ?_⟩
  · rw [computeFunnelAnalysis_steps_getD events 0 h0]
    rfl
  · intro i hipos hi
    have hi1 : i - 1 < funnelSteps.length := by omega
    rw [computeFunnelAnalysis_steps_getD events i hi,
      computeFunnelAnalysis_steps_getD events (i - 1) hi1]
    constructor
    · intro hzero
      rw [funnelStepAt_users] at hzero
      unfold funnelStepAt
      dsimp only
      rw [if_neg (by omega), if_neg (by omega)]
    · intro hpos
      rw [funnelStepAt_users] at hpos
      unfold funnelStepAt
      dsimp only
      rw [if_neg (by omega), if_pos hpos]
  · intro hzero
    rw [computeFunnelAnalysis_steps_getD events 0 h0, funnelStepAt_users] at hzero
    unfold computeFunnelAnalysis
    dsimp only
    have hcond : ¬ (0 < (((List.range funnelSteps.length).map (funnelStepAt events)).headD
          (funnelStepAt events 0)).users) := by
      rw [show ((List.range funnelSteps.length).map (funnelStepAt events)).headD
            (funnelStepAt events 0) = funnelStepAt events 0 from rfl, funnelStepAt_users]
      omega
    rw [if_neg hcond]
  · intro hpos
    rw [computeFunnelAnalysis_steps_getD events 0 h0, funnelStepAt_users] at hpos
    have h4 : funnelSteps.length - 1 < funnelSteps.length := by decide
    rw [computeFunnelAnalysis_steps_getD events 0 h0,
      computeFunnelAnalysis_steps_getD events (funnelSteps.length - 1) h4]
    unfold computeFunnelAnalysis
    dsimp only
    rw [show ((List.range funnelSteps.length).map (funnelStepAt events)).headD
          (funnelStepAt events 0) = funnelStepAt events 0 from rfl]
    rw [show ((List.range funnelSteps.length).map (funnelStepAt events)).getLastD
          (funnelStepAt events 0) = funnelStepAt events (funnelSteps.length - 1) from rfl]
    have hcond : 0 < (funnelStepAt events 0).users := by
      rw [funnelStepAt_users]; exact hpos
    rw [if_pos hcond]

/-- Concrete events for the funnel witnesses: one `app_open` user and one
user who only triggered the later `signal_captured` step. -/
def funnelWitnessEvents : List Event :=
  [{ type := "app_open", userId := "u1", day := 0 },
   { type := "signal_captured", userId := "u2", day := 0 }]

/-- Witness for C2: at step index 2 (`signal_captured`) the unique-user count
is the distinct-user count of that step's events, and `u2` is counted there
despite having no `app_open` event. -/
theorem c2_funnel_set_membership_witness :
    ((computeFunnelAnalysis funnelWitnessEvents).steps.getD 2 emptyFunnelStep).users
      = ((funnelWitnessEvents.filter (fun e => e.type = funnelSteps.getD 2 "")).map
          (fun e => e.userId)).toFinset.card
    ∧ "u2" ∈ usersForStep funnelWitnessEvents (funnelSteps.getD 2 "") :=
  ⟨(c2_funnel_set_membership funnelWitnessEvents 2 (by decide)).1,
   (c2_funnel_set_membership funnelWitnessEvents 2 (by decide)).2.2 "u2" (by decide)⟩

/-- Witness for C6: on concrete events the first row's rate is 1 and (the
first step having one user) the overall conversion is last-over-first. -/
theorem c6_funnel_conversion_witness :
    ((computeFunnelAnalysis funnelWitnessEvents).steps.getD 0 emptyFunnelStep).conversionRate = 1
    ∧ (computeFunnelAnalysis funnelWitnessEvents).overallConversion
        = (((computeFunnelAnalysis funnelWitnessEvents).steps.getD (funnelSteps.length - 1)
              emptyFunnelStep).users : Rat)
          / (((computeFunnelAnalysis funnelWitnessEvents).steps.getD 0
              emptyFunnelStep).users : Rat) :=
  ⟨(c6_funnel_conversion funnelWitnessEvents).1,
   (c6_funnel_conversion funnelWitnessEvents).2.2.2 (by decide)⟩

/-! ### Lemmas about retention -/

/-- Claim C7: every retention entry carries the cohort size as `total` and
counts exactly the users whose active-day set contains their first-seen day
shifted by the offset; the rate is retained/total (0 for an empty cohort)
and always lies in [0, 1]; and a user whose only activity day is their
first-seen day is not retained at any positive offset. -/
theorem c7_retention (events : List Event) :
    (computeRetentionAnalysis events).totalUsers = (userFirstSeen events).length
    ∧ (∀ ent ∈ (computeRetentionAnalysis events).retention,
        ent.total = (computeRetentionAnalysis events).totalUsers
        ∧ ent.retained
            = ((userFirstSeen events).filter
                (isRetained (userActiveDays events) ent.dayOffset)).length
        ∧ (ent.total = 0 → ent.rate = 0)
        ∧ (0 < ent.total → ent.rate = (ent.retained : Rat) / (ent.total : Rat))
        ∧ 0 ≤ ent.rate ∧ ent.rate ≤ 1)
    ∧ (∀ (u : String) (t : Int) (l : List Int) (d : Int),
        (userFirstSeen events).lookup u = some t →
        (userActiveDays events).lookup u = some l →
        (∀ x ∈ l, x = t) → 0 < d →
        isRetained (userActiveDays events) d (u, t) = false) := by
  refine ⟨rfl, ?_, ?_⟩
  · intro ent hent
    unfold computeRetentionAnalysis at hent
    dsimp only at hent
    rcases List.mem_map.mp hent with ⟨off, _, rfl⟩
    dsimp only
    refine ⟨rfl, rfl, ?_, ?_, ?_, ?_⟩
    · intro hzero
      rw [if_neg (by omega)]
    · intro hpos
      rw [if_pos hpos]
    · by_cases hpos : 0 < (userFirstSeen events).length
      · rw [if_pos hpos]
        positivity
      · rw [if_neg hpos]
    · by_cases hpos : 0 < (userFirstSeen events).length
      · rw [if_pos hpos]
        rw [div_le_one (by positivity)]
        exact_mod_cast List.length_filter_le _ _
      · rw [if_neg hpos]
        norm_num
  · intro u t l d h1 h2 hall hd
    simp only [isRetained, h2]
    rw [decide_eq_false_iff_not]
    intro hmem
    have := hall _ hmem
    omega

/-- Concrete events for the C7 witness: a single user active only on day 0. -/
def retWitnessEvents : List Event := [{ type := "signal_captured", userId := "u1", day := 0 }]

/-- Witness for C7: the first configured retention entry has rate in [0, 1],
and the single-day user is not retained at offset 3. -/
theorem c7_retention_witness :
    ((computeRetentionAnalysis retWitnessEvents).retention.getD 0
        { dayOffset := 0, retained := 0, total := 0, rate := 0 }).rate ≤ 1
    ∧ isRetained (userActiveDays retWitnessEvents) 3 ("u1", 0) = false :=
  ⟨((c7_retention retWitnessEvents).2.1 _
      (by rw [List.getD_eq_getElem _ _ (by decide)]; exact List.getElem_mem _)).2.2.2.2.2,
   (c7_retention retWitnessEvents).2.2 "u1" 0 [0] 3 (by decide) (by decide) (by decide)
     (by decide)⟩

/-! ### Lemmas about the anomaly detector -/

theorem average_zero (l : List Rat) (h : ∀ x ∈ l, x = 0) : average l = 0 := by
  unfold average
  split_ifs
  · rfl
  · rw [List.sum_eq_zero h, zero_div]

theorem previousWindow_length (ts : List DayBucket) (h : 14 ≤ ts.length) :
    (previousWindow ts).length = 7 := by
  simp only [previousWindow, List.length_take, List.length_drop]
  omega

theorem detectAnomalies_of_le (ts : List DayBucket) (h14 : 14 ≤ ts.length) :
    detectAnomalies ts
      = volumeAnomalies ts ++ impactAnomalies ts ++ criticalAnomalies ts
          ++ categoryAnomalies ts := by
  have hpw : (previousWindow ts).length = 7 := previousWindow_length ts h14
  unfold detectAnomalies
  rw [if_neg (by omega), if_neg (by omega)]

theorem volumeAnomalies_empty (ts : List DayBucket)
    (h : |volumeDelta ts| < signalVolumeDeltaThreshold) : volumeAnomalies ts = [] := by
  simp only [volumeAnomalies]
  rw [if_neg (not_le.mpr h)]

theorem impactAnomalies_empty (ts : List DayBucket)
    (h : |impactDelta ts| < impactScoreDeltaThreshold) : impactAnomalies ts = [] := by
  simp only [impactAnomalies]
  rw [if_neg (not_le.mpr h)]

theorem criticalAnomalies_empty (ts : List DayBucket)
    (h : criticalFrac ts < criticalSignalThreshold) : criticalAnomalies ts = [] := by
  simp only [criticalAnomalies]
  rw [if_neg (not_le.mpr h)]

theorem categoryAnomalies_empty (ts : List DayBucket)
    (h : concentrationOf ts ≤ 1/2) : categoryAnomalies ts = [] := by
  simp only [categoryAnomalies]
  rw [if_neg ?_]
  rintro ⟨_, hgt⟩
  exact absurd hgt (not_lt.mpr h)

theorem mem_impactAnomalies_type (ts : List DayBucket) (a : Anomaly)
    (h : a ∈ impactAnomalies ts) : a.type = "impact_score_anomaly" := by
  simp only [impactAnomalies] at h
  split_ifs at h <;>
    first
      | (rcases List.mem_singleton.mp h with rfl; rfl)
      | simp at h

theorem mem_criticalAnomalies_type (ts : List DayBucket) (a : Anomaly)
    (h : a ∈ criticalAnomalies ts) : a.type = "critical_signal_spike" := by
  simp only [criticalAnomalies] at h
  split_ifs at h <;>
    first
      | (rcases List.mem_singleton.mp h with rfl; rfl)
      | simp at h

theorem mem_categoryAnomalies_type (ts : List DayBucket) (a : Anomaly)
    (h : a ∈ categoryAnomalies ts) : a.type = "category_concentration" := by
  simp only [categoryAnomalies] at h
  split_ifs at h <;>
    first
      | (rcases List.mem_singleton.mp h with rfl; rfl)
      | simp at h

/-- Claim C1: with at least 14 buckets and a previous comparison window of
zero daily volume, the relative volume change is defined as 0 (so no volume
anomaly is ever emitted), while a critical-ratio anomaly is emitted as soon
as the recent critical fraction reaches the 15% threshold. -/
theorem c1_anomaly_zero_previous (ts : List DayBucket)
    (h14 : 14 ≤ ts.length)
    (hprev : ∀ b ∈ previousWindow ts, b.signalCount = 0) :
    volumeDelta ts = 0
    ∧ (∀ a ∈ detectAnomalies ts, a.type ≠ "signal_volume_anomaly")
    ∧ (criticalSignalThreshold ≤ criticalFrac ts →
        ∃ a ∈ detectAnomalies ts, a.type = "critical_signal_spike"
          ∧ a.delta = criticalFrac ts) := by
  have hpv : average ((previousWindow ts).map (fun d => (d.signalCount : Rat))) = 0 := by
    apply average_zero
    intro x hx
    rcases List.mem_map.mp hx with ⟨b, hb, rfl⟩
    rw [hprev b hb]
    norm_num
  have hv0 : volumeDelta ts = 0 := by
    simp only [volumeDelta, hpv]
    norm_num
  refine ⟨hv0, ?_, ?_⟩
  · intro a ha
    rw [detectAnomalies_of_le ts h14,
      volumeAnomalies_empty ts (by rw [hv0, abs_zero]; with_unfolding_all decide)] at ha
    simp only [List.nil_append, List.mem_append] at ha
    rcases ha with (ha | ha) | ha
    · rw [mem_impactAnomalies_type ts a ha]
      decide
    · rw [mem_criticalAnomalies_type ts a ha]
      decide
    · rw [mem_categoryAnomalies_type ts a ha]
      decide
  · intro hcrit
    have hca : criticalAnomalies ts
        = [{ type := "critical_signal_spike", severity := "high",
             delta := criticalFrac ts, metric := "critical_ratio",
             current := some ((recentCriticalCount ts : Int)),
             total := some (recentTotalCount ts) }] := by
      simp only [criticalAnomalies]
      rw [if_pos hcrit]
    refine ⟨{ type := "critical_signal_spike", severity := "high",
              delta := criticalFrac ts, metric := "critical_ratio",
              current := some ((recentCriticalCount ts : Int)),
              total := some (recentTotalCount ts) }, ?_, rfl, rfl⟩
    rw [detectAnomalies_of_le ts h14, hca]
    simp

/-- Claim C8: the anomaly detector returns the empty list for any series of
fewer than 14 buckets, and also whenever every computed delta and ratio is
below its configured threshold; neither situation is an error. -/
theorem c8_anomaly_quiet :
    (∀ ts : List DayBucket, ts.length < 14 → detectAnomalies ts = [])
    ∧ (∀ ts : List DayBucket,
        |volumeDelta ts| < signalVolumeDeltaThreshold →
        |impactDelta ts| < impactScoreDeltaThreshold →
        criticalFrac ts < criticalSignalThreshold →
        concentrationOf ts ≤ 1/2 →
        detectAnomalies ts = []) := by
  constructor
  · intro ts h
    unfold detectAnomalies
    rw [if_pos h]
  · intro ts h1 h2 h3 h4
    by_cases hlen : ts.length < 14
    · unfold detectAnomalies
      rw [if_pos hlen]
    · rw [detectAnomalies_of_le ts (by omega), volumeAnomalies_empty ts h1,
        impactAnomalies_empty ts h2, criticalAnomalies_empty ts h3,
        categoryAnomalies_empty ts h4]
      rfl

/-- A day bucket holding `n` signals of which `c` are critical. -/
def spikeBucket (d : Int) (n c : Nat) : DayBucket :=
  { zeroBucket d with signalCount := n, criticalCount := c }

/-- Fourteen-day series for the C1 witness: 7 empty days followed by 7 days
holding 35 signals of which 20 are critical. -/
def spikeSeries : List DayBucket :=
  ((List.range 7).map (fun (i : Nat) => zeroBucket (i : Int)))
    ++ [spikeBucket 7 5 2, spikeBucket 8 5 3, spikeBucket 9 5 3, spikeBucket 10 5 3,
        spikeBucket 11 5 3, spikeBucket 12 5 3, spikeBucket 13 5 3]

/-- Witness for C1: on the spike series (previous week empty, 20 of 35 recent
signals critical) the volume delta is 0 yet a critical-ratio anomaly is
present. -/
theorem c1_anomaly_zero_previous_witness :
    volumeDelta spikeSeries = 0
    ∧ ∃ a ∈ detectAnomalies spikeSeries, a.type = "critical_signal_spike"
        ∧ a.delta = criticalFrac spikeSeries :=
  ⟨(c1_anomaly_zero_previous spikeSeries (by decide) (by decide)).1,
   (c1_anomaly_zero_previous spikeSeries (by decide) (by decide)).2.2
     (by with_unfolding_all decide)⟩

/-- Fourteen empty daily buckets for the C8 witness. -/
def quietSeries : List DayBucket :=
  (List.range 14).map (fun (i : Nat) => zeroBucket (i : Int))

/-- Witness for C8: the empty series (short history) and a 14-day all-zero
series (every delta below threshold) both yield no anomalies. -/
theorem c8_anomaly_quiet_witness :
    detectAnomalies [] = [] ∧ detectAnomalies quietSeries = [] :=
  ⟨c8_anomaly_quiet.1 [] (by decide),
   c8_anomaly_quiet.2 quietSeries
     (by with_unfolding_all decide)
     (by with_unfolding_all decide)
     (by with_unfolding_all decide)
     (by with_unfolding_all decide)⟩

/-! ### Lemmas about the linear regression -/

theorem sum_nonneg_eq_zero (l : List Rat) (hnn : ∀ v ∈ l, 0 ≤ v) (hsum : l.sum = 0) :
    ∀ v ∈ l, v = 0 := by
  induction l with
  | nil => intro v hv; cases hv
  | cons a t ih =>
      rw [List.sum_cons] at hsum
      have hts : 0 ≤ t.sum := List.sum_nonneg (fun v hv => hnn v (List.mem_cons_of_mem a hv))
      have ha : 0 ≤ a := hnn a (List.mem_cons_self a t)
      have ha0 : a = 0 := by linarith
      have ht0 : t.sum = 0 := by linarith
      intro v hv
      rcases List.mem_cons.mp hv with rfl | hv2
      · exact ha0
      · exact ih (fun w hw => hnn w (List.mem_cons_of_mem a hw)) ht0 v hv2

theorem sum_of_const (l : List Rat) (c : Rat) (h : ∀ v ∈ l, v = c) :
    l.sum = (l.length : Rat) * c := by
  induction l with
  | nil => simp
  | cons a t ih =>
      rw [List.sum_cons, ih (fun v hv => h v (List.mem_cons_of_mem a hv)),
        h a (List.mem_cons_self a t), List.length_cons]
      push_cast
      ring

theorem xVariance_all_eq (x : List Rat) (hpos : 0 < x.length) (hvar : xVariance x = 0) :
    ∀ v ∈ x, v = average x := by
  unfold xVariance average at hvar
  rw [if_neg (by simp only [List.length_map]; omega)] at hvar
  have hne : ((x.map (fun v => (v - average x) * (v - average x))).length : Rat) ≠ 0 := by
    simp only [List.length_map]
    exact Nat.cast_ne_zero.mpr (by omega)
  have hsum0 : (x.map (fun v => (v - average x) * (v - average x))).sum = 0 := by
    rcases div_eq_zero_iff.mp hvar with h | h
    · exact h
    · exact absurd h hne
  have hz := sum_nonneg_eq_zero _ (fun v hv => by
    rcases List.mem_map.mp hv with ⟨w, _, rfl⟩
    exact mul_self_nonneg _) hsum0
  intro v hv
  have := hz ((v - average x) * (v - average x)) (List.mem_map_of_mem _ hv)
  have hvz : v - average x = 0 := mul_self_eq_zero.mp this
  linarith

theorem regression_denominator_zero (x : List Rat)
    (h : x.length < 2 ∨ (0 < x.length ∧ xVariance x = 0)) :
    (x.length : Rat) * ((x.map (fun xi => xi * xi)).sum) - x.sum * x.sum = 0 := by
  rcases h with hlt | ⟨hpos, hvar⟩
  · rcases x with _ | ⟨a, t⟩
    · simp
    · have ht : t = [] := by
        cases t with
        | nil => rfl
        | cons b t2 => simp only [List.length_cons] at hlt; omega
      subst ht
      simp only [List.length_cons, List.length_nil, List.map_cons, List.map_nil,
        List.sum_cons, List.sum_nil]
      push_cast
      ring
  · have hall := xVariance_all_eq x hpos hvar
    have hsum : x.sum = (x.length : Rat) * average x := sum_of_const x (average x) hall
    have hsq : (x.map (fun xi => xi * xi)).sum
        = (x.length : Rat) * (average x * average x) := by
      have := sum_of_const (x.map (fun xi => xi * xi)) (average x * average x) (fun v hv => by
        rcases List.mem_map.mp hv with ⟨w, hw, rfl⟩
        rw [hall w hw])
      rw [this, List.length_map]
    rw [hsum, hsq]
    ring

/-- Counterexample to C3 as stated: on the single point `x = [0]`, `y = [5]`
(fewer than 2 points, zero variance) `linearRegression` returns slope 0 but
intercept 5, not `{slope: 0, intercept: 0}`. -/
theorem c3_linearRegression_counterexample :
    (([(0 : Rat)] : List Rat).length < 2)
    ∧ linearRegression [(0 : Rat)] [(5 : Rat)] ≠ { slope := 0, intercept := 0 } := by
  constructor
  · decide
  · with_unfolding_all decide

/-- Claim C3 (amended): whenever the input has fewer than 2 points or the
variance of the xs is zero, `linearRegression` returns slope exactly 0, and
its intercept is then `sumY / n` — the mean of the ys for equal-length
inputs, and 0 for empty input — never an infinity or NaN (the degenerate
denominator is guarded, not divided by). -/
theorem c3_degenerate_regression (x y : List Rat)
    (h : x.length < 2 ∨ (0 < x.length ∧ xVariance x = 0)) :
    (linearRegression x y).slope = 0
    ∧ (linearRegression x y).intercept
        = (if x.length = 0 then 0 else y.sum / (x.length : Rat)) := by
  have hden := regression_denominator_zero x h
  simp only [linearRegression]
  constructor
  · rw [if_neg (fun hc => hc hden)]
  · by_cases hn : x.length = 0
    · rw [if_neg (fun hc => hc hn), if_pos hn]
    · rw [if_pos hn, if_neg hn, if_neg (fun hc => hc hden), zero_mul, sub_zero]

/-- Witness for the amended C3: `x = [1,1]` has zero variance, so the slope
is 0 and the intercept is the mean `(2+4)/2 = 3`, not 0. -/
theorem c3_degenerate_regression_witness :
    (linearRegression [(1 : Rat), 1] [(2 : Rat), 4]).slope = 0
    ∧ (linearRegression [(1 : Rat), 1] [(2 : Rat), 4]).intercept
        = (if ([(1 : Rat), 1] : List Rat).length = 0 then 0
           else ([(2 : Rat), 4] : List Rat).sum / (([(1 : Rat), 1] : List Rat).length : Rat)) :=
  c3_degenerate_regression [1, 1] [2, 4]
    (Or.inr ⟨by decide, by with_unfolding_all decide⟩)

/-! ### Lemmas about the forecaster -/

/-- Placeholder used as the `getD` default when indexing predictions. -/
def defaultPrediction : Prediction :=
  { projectedSignals := 0, confidence := 0, trend := "" }

theorem predictFutureTrends_getD (daily : List Rat) (h7 : 7 ≤ daily.length)
    (j : Nat) (hj : j < 7) :
    (predictFutureTrends daily).getD j defaultPrediction
      = { projectedSignals := max 0 (jsRound ((dailyRegression daily).slope
            * (((recentDaily daily).length : Rat) + ((j + 1 : Nat) : Rat))
            + (dailyRegression daily).intercept))
          confidence := max 60 (95 - ((j + 1 : Nat) : Int) * 5)
          trend := if 0 < (dailyRegression daily).slope then "increasing"
            else if (dailyRegression daily).slope < 0 then "decreasing" else "stable" } := by
  have hrec : ¬ ((recentDaily daily).length < 7) := by
    simp only [recentDaily, List.length_drop]
    omega
  simp only [predictFutureTrends]
  rw [if_neg hrec]
  rw [List.getD_eq_getElem _ _ (by simp only [List.length_map, List.length_range]; exact hj),
    List.getElem_map, List.getElem_range]

/-- Claim C9: with at least 7 daily buckets the forecaster returns exactly 7
projections, each `slope * (n + i) + intercept` JS-rounded and clamped at 0,
with confidence `max 60 (95 - 5i)` — a non-increasing sequence within
[60, 95]; with fewer than 7 buckets it returns no predictions. -/
theorem c9_forecaster :
    (∀ daily : List Rat, 7 ≤ daily.length →
      (predictFutureTrends daily).length = 7
      ∧ (∀ j : Nat, j < 7 →
          ((predictFutureTrends daily).getD j defaultPrediction).projectedSignals
            = max 0 (jsRound ((dailyRegression daily).slope
                * (((recentDaily daily).length : Rat) + ((j + 1 : Nat) : Rat))
                + (dailyRegression daily).intercept))
          ∧ ((predictFutureTrends daily).getD j defaultPrediction).confidence
              = max 60 (95 - ((j + 1 : Nat) : Int) * 5))
      ∧ (∀ j : Nat, j + 1 < 7 →
          ((predictFutureTrends daily).getD (j + 1) defaultPrediction).confidence
            ≤ ((predictFutureTrends daily).getD j defaultPrediction).confidence)
      ∧ (∀ j : Nat, j < 7 →
          60 ≤ ((predictFutureTrends daily).getD j defaultPrediction).confidence
          ∧ ((predictFutureTrends daily).getD j defaultPrediction).confidence ≤ 95))
    ∧ (∀ daily : List Rat, daily.length < 7 → predictFutureTrends daily = []) := by
  constructor
  · intro daily h7
    have hrec : ¬ ((recentDaily daily).length < 7) := by
      simp only [recentDaily, List.length_drop]
      omega
    refine ⟨?_, ?_, ?_, ?_⟩
    · simp only [predictFutureTrends]
      rw [if_neg hrec]
      simp
    · intro j hj
      rw [predictFutureTrends_getD daily h7 j hj]
      exact ⟨rfl, rfl⟩
    · intro j hj2
      rw [predictFutureTrends_getD daily h7 (j + 1) hj2,
        predictFutureTrends_getD daily h7 j (by omega)]
      dsimp only
      push_cast
      omega
    · intro j hj
      rw [predictFutureTrends_getD daily h7 j hj]
      dsimp only
      constructor
      · push_cast
        omega
      · push_cast
        omega
  · intro daily hlt
    have hrec : (recentDaily daily).length < 7 := by
      simp only [recentDaily, List.length_drop]
      omega
    simp only [predictFutureTrends]
    rw [if_pos hrec]

/-- Witness for C9: seven zero days yield exactly 7 predictions, and the
empty series yields none. -/
theorem c9_forecaster_witness :
    (predictFutureTrends [0, 0, 0, 0, 0, 0, 0]).length = 7
    ∧ predictFutureTrends ([] : List Rat) = [] :=
  ⟨(c9_forecaster.1 [0, 0, 0, 0, 0, 0, 0] (by decide)).1,
   c9_forecaster.2 [] (by decide)⟩

end SignalBoard
